import Mathlib

/-!
Verification of the API orchestration layer of the AI-Analysis report
generator (`src/pages/GenerateReport.tsx`).

The TypeScript source is shallowly embedded: times are `Nat` milliseconds,
the JavaScript `Map<string, CacheEntry>` is an insertion-ordered association
list, `localStorage` is an explicit `Option` slot, asynchronous network calls
are oracles supplied as values, and the React `useState` cells are an
explicit record.  React function components capture state in closures: inside
one invocation of `handleGenerateReport` every read of a state variable sees
the value from the render that created the closure (the "snapshot"), while
`setX` calls update the pending state for future renders.  The embedding
therefore passes the handler a fixed `snap : ReactState` for reads and
threads a mutable `ReactState` through the world for writes; functional
updaters (`setX (prev => ...)`) read the threaded state, as React guarantees.
-/

set_option autoImplicit false

/-! ### Configuration constants (lines 33-42, 150-155 of the source) -/

structure RateLimitConfig where
  maxRequestsPerMinute : Nat
  cooldownPeriod : Nat
deriving Repr, DecidableEq

/-- `RATE_LIMIT_CONFIG` from the source: 10 requests per minute window. -/
def RATE_LIMIT_CONFIG : RateLimitConfig :=
  { maxRequestsPerMinute := 10, cooldownPeriod := 60000 }

structure CacheConfig where
  maxAge : Nat
  maxEntries : Nat
deriving Repr, DecidableEq

/-- `CACHE_CONFIG` from the source: 24h expiry, 50 entries. -/
def CACHE_CONFIG : CacheConfig :=
  { maxAge := 24 * 60 * 60 * 1000, maxEntries := 50 }

structure RetryConfig where
  maxRetries : Nat
  initialDelay : Nat
  maxDelay : Nat
  backoffFactor : Nat
deriving Repr, DecidableEq

/-- `RETRY_CONFIG` from the source. -/
def RETRY_CONFIG : RetryConfig :=
  { maxRetries := 3, initialDelay := 2000, maxDelay := 30000, backoffFactor := 2 }

/-! ### `CacheEntry` and the JavaScript `Map` (insertion-ordered) -/

/-- `CacheEntry` interface (lines 26-30). -/
structure CacheEntry where
  data : String
  timestamp : Nat
  imageHash : String
deriving Repr, DecidableEq

/-- `Map.get`: first binding of the key (keys are unique in a JS `Map`). -/
def mapGet : List (String × CacheEntry) → String → Option CacheEntry
  | [], _ => none
  | (k', v') :: rest, k => if k' == k then some v' else mapGet rest k

/-- `Map.set`: overwrite in place if the key exists (a JS `Map` keeps the
original insertion position), otherwise append. -/
def mapSet : List (String × CacheEntry) → String → CacheEntry → List (String × CacheEntry)
  | [], k, v => [(k, v)]
  | (k', v') :: rest, k, v =>
      if k' == k then (k, v) :: rest else (k', v') :: mapSet rest k v

/-- `Map.delete`: remove the binding of the key. -/
def mapDelete (m : List (String × CacheEntry)) (k : String) : List (String × CacheEntry) :=
  m.filter (fun p => !(p.1 == k))

/-! ### `CacheManager` state

The class owns the in-memory `Map`, the rate-limiter timestamp list and
(through `loadFromLocalStorage` / `saveToLocalStorage`) the single
`localStorage` record named `geminiApiCache`.  A missing or corrupt stored
record is treated as an empty cache, so the slot is an `Option`. -/

structure CMState where
  cache : List (String × CacheEntry)
  requestTimestamps : List Nat
  storageGeminiApiCache : Option (List (String × CacheEntry))
deriving Repr, DecidableEq

/-- The constructor plus `loadFromLocalStorage` (lines 59-76): a fresh
session loads the in-memory map from the durable slot, empty on absence. -/
def CacheManager.new (storage : Option (List (String × CacheEntry))) : CMState :=
  { cache := storage.getD [], requestTimestamps := [], storageGeminiApiCache := storage }

/-- `CacheManager.get` (lines 87-102).  `imageHash` is the SHA-256 content
digest computed by `generateImageHash`; the digest itself is an external
browser primitive, so it is a function parameter.  Returns the cached data
when the entry is younger than `maxAge`, deletes the entry (in memory only)
when it has expired.  JS computes `Date.now() - entry.timestamp` as a signed
number; for the comparisons performed here truncated `Nat` subtraction gives
identical branches. -/
def CacheManager.get (hash : String → String) (now : Nat) (s : CMState)
    (imageUrl prompt : String) : Option String × CMState :=
  let imageHash := hash imageUrl
  let cacheKey := imageHash ++ "-" ++ prompt
  match mapGet s.cache cacheKey with
  | some entry =>
      if now - entry.timestamp < CACHE_CONFIG.maxAge then
        (some entry.data, s)
      else
        (none, { s with cache := mapDelete s.cache cacheKey })
  | none => (none, s)

/-- The key of the entry with the smallest timestamp, earliest-inserted
among ties: `Array.from(entries).sort((a,b) => a.timestamp - b.timestamp)[0][0]`
with a stable sort (line 110-111). -/
def oldestKeyAux : String → Nat → List (String × CacheEntry) → String
  | bk, _, [] => bk
  | bk, bt, (k, e) :: rest =>
      if e.timestamp < bt then oldestKeyAux k e.timestamp rest else oldestKeyAux bk bt rest

def oldestKey : List (String × CacheEntry) → Option String
  | [] => none
  | (k, e) :: rest => some (oldestKeyAux k e.timestamp rest)

/-- `CacheManager.set` (lines 104-122): evict the oldest entry when at
capacity, insert the new entry stamped with the current time, then
`saveToLocalStorage` persists the updated map (lines 78-85). -/
def CacheManager.set (hash : String → String) (now : Nat) (s : CMState)
    (imageUrl prompt data : String) : CMState :=
  let imageHash := hash imageUrl
  let cacheKey := imageHash ++ "-" ++ prompt
  let cache1 :=
    if CACHE_CONFIG.maxEntries ≤ s.cache.length then
      match oldestKey s.cache with
      | some k0 => mapDelete s.cache k0
      | none => s.cache
    else s.cache
  let cache2 := mapSet cache1 cacheKey { data := data, timestamp := now, imageHash := imageHash }
  { s with cache := cache2, storageGeminiApiCache := some cache2 }

/-- `CacheManager.canMakeRequest` (lines 124-132): prune timestamps older
than the cooldown window (the pruned list is written back), then compare the
count with the per-minute maximum. -/
def canMakeRequest (now : Nat) (s : CMState) : Bool × CMState :=
  let ts := s.requestTimestamps.filter (fun t => now - t < RATE_LIMIT_CONFIG.cooldownPeriod)
  (decide (ts.length < RATE_LIMIT_CONFIG.maxRequestsPerMinute),
    { s with requestTimestamps := ts })

/-- `CacheManager.recordRequest` (lines 134-136). -/
def recordRequest (now : Nat) (s : CMState) : CMState :=
  { s with requestTimestamps := s.requestTimestamps ++ [now] }

/-- `CacheManager.getNextAvailableTime` (lines 138-143): re-checks
`canMakeRequest` (pruning again), then reports how long until the oldest
surviving timestamp leaves the window; `Math.max(0, ...)` is the `Nat`
truncation. -/
def getNextAvailableTime (now : Nat) (s : CMState) : Nat × CMState :=
  let pr := canMakeRequest now s
  if pr.1 then (0, pr.2)
  else (pr.2.requestTimestamps.headD 0 + RATE_LIMIT_CONFIG.cooldownPeriod - now, pr.2)

/-! ### String utilities -/

/-- JavaScript `String.prototype.includes`. -/
def strContains (s pat : String) : Bool :=
  s.data.tails.any (fun t => pat.data.isPrefixOf t)

/-- JavaScript `String.prototype.trim` (drop leading and trailing
whitespace). -/
def jsTrim (s : String) : String :=
  let ws : Char → Bool := fun c => c == ' ' || c == '\n' || c == '\t' || c == '\r'
  String.mk (((s.data.dropWhile ws).reverse.dropWhile ws).reverse)

/-- JavaScript `a || b` on numbers: `b` when `a` is `0`. -/
def jsOrNat (a b : Nat) : Nat := if a == 0 then b else a

/-- `Math.ceil(n / 1000)` on a non-negative integer. -/
def ceilDiv1000 (n : Nat) : Nat := (n + 999) / 1000

/-! ### JSON values

`JSON.parse` is a browser builtin; the orchestrator only needs the shape of
its result, so the parser itself is a parameter of type
`String → Option Json` (`none` models a thrown `SyntaxError`). -/

inductive Json where
  | null : Json
  | bool : Bool → Json
  | num : Int → Json
  | str : String → Json
  | arr : List Json → Json
  | obj : List (String × Json) → Json
deriving Repr

/-- Property access `v.k` on a parsed value: a field of an object, otherwise
`undefined` (`none`). -/
def Json.getField : Json → String → Option Json
  | .obj fields, k => (fields.find? (fun p => p.1 == k)).map (fun p => p.2)
  | _, _ => none

/-! ### The structured-output extraction step

`analysisResponse.match(/\x7b[\s\S]*\x7d/)` (line 528): the leftmost-longest
match runs from the first opening brace that is followed by some closing
brace, greedily to the last closing brace of the whole string. -/

def openBrace : Char := '\x7b'

def closeBrace : Char := '\x7d'

def jsonMatchList (cs : List Char) : Option (List Char) :=
  let t := cs.dropWhile (fun c => !(c == openBrace))
  let r := (t.reverse.dropWhile (fun c => !(c == closeBrace))).reverse
  if r.isEmpty then none else some r

/-- The source's regex extraction `response.match(/\x7b[\s\S]*\x7d/)`. -/
def jsonMatch (s : String) : Option String :=
  (jsonMatchList s.data).map String.mk

/-- Modelled from the spec: "the response is scanned for the first balanced
JSON-like block".  Scans to the first opening brace and returns the segment
up to the brace that balances it.  This definition follows the
specification's words and exists to be compared with `jsonMatch`, the
extraction the source actually performs. -/
def balancedPrefixAux : Nat → List Char → List Char → Option (List Char)
  | _, _, [] => none
  | depth, acc, c :: rest =>
      if c = openBrace then balancedPrefixAux (depth + 1) (c :: acc) rest
      else if c = closeBrace then
        if depth = 1 then some ((c :: acc).reverse)
        else balancedPrefixAux (depth - 1) (c :: acc) rest
      else balancedPrefixAux depth (c :: acc) rest

def firstBalancedBlock (s : String) : Option String :=
  match s.data.dropWhile (fun c => !(c == openBrace)) with
  | [] => none
  | t => (balancedPrefixAux 0 [] t).map String.mk

/-! ### React component state

One record per `useState` cell of the `GenerateReport` component
(lines 199-208). -/

structure ReportData where
  repaired_image_url : String
  /-- The source stores `JSON.stringify(parsedResponse.repair_description, null, 2)`;
  the embedding keeps the structured value being serialized.  A field the
  parsed response lacks is JavaScript `undefined`, i.e. `none`. -/
  repair_description : Option Json
  cost_estimation : Option Json
  timeline : Option Json

structure ReactState where
  uploadedImage : Option String
  userDescription : String
  isLoading : Bool
  reportData : Option ReportData
  error : Option String
  processingStep : String
  retryCount : Nat
  retryDelay : Nat
  cacheStatus : Option String
  rateLimitStatus : Option String

def initialReactState : ReactState :=
  { uploadedImage := none, userDescription := "", isLoading := false,
    reportData := none, error := none, processingStep := "",
    retryCount := 0, retryDelay := 0, cacheStatus := none, rateLimitStatus := none }

/-- `canGenerateReport` (line 602): the button is enabled only with an image
and no run in flight. -/
def canGenerateReport (r : ReactState) : Bool :=
  r.uploadedImage.isSome && !r.isLoading

/-! ### Remote endpoints as oracles

A `fetch` either rejects (transport failure, `reject`) or resolves to a
response with a status and a decoded JSON body (`resp`).  Only the pieces of
the body the source reads are modelled. -/

/-- The fields the source reads from a `generateContent` response body:
`errorData.error?.message`, the guard
`data.candidates && data.candidates[0] && data.candidates[0].content`, and
`data.candidates[0].content.parts[0].text` (readable or not). -/
structure GeminiBody where
  errorMessage : Option String
  contentPresent : Bool
  partsText : Option String

inductive FetchOutcome where
  | reject : String → FetchOutcome
  | resp : Nat → GeminiBody → FetchOutcome

/-- The field the source reads from a `generateImage` response body:
`data.generatedImages && data.generatedImages[0]`, then
`.bytesBase64Encoded`. -/
structure ImagenBody where
  generatedImage : Option String

inductive ImagenOutcome where
  | reject : String → ImagenOutcome
  | resp : Nat → ImagenBody → ImagenOutcome

/-- `Response.ok`: status in the 200-299 range. -/
def responseOk (status : Nat) : Bool :=
  decide (200 ≤ status) && decide (status < 300)

/-! ### The world threaded through one run

`net` is the oracle for the analysis endpoint: dispatch number `n` of the
run observes `net n`.  `dispatches` counts the analysis-endpoint fetches
actually issued, and `sleeps` logs every backoff delay slept. -/

structure World where
  now : Nat
  cm : CMState
  react : ReactState
  net : Nat → FetchOutcome
  dispatches : Nat
  sleeps : List Nat

/-! ### Error messages (verbatim from the source) -/

def apiKeyMissingMessage : String :=
  "Gemini API key not found. Please add VITE_GEMINI_API_KEY to your .env file."

def quotaExceededMessage : String :=
  "API quota exceeded. Retrying automatically..."

def accessDeniedMessage : String :=
  "API access denied. Please check your API key and billing status. " ++
  "Make sure your API key is valid and has the necessary permissions."

def noResponseMessage : String :=
  "No response generated from Gemini"

def rateLimitMessage (waitTime : Nat) : String :=
  "Rate limit reached. Please wait " ++ toString (ceilDiv1000 waitTime) ++ " seconds."

/-- Error classification in `retryWithBackoff` (lines 180-182): only
quota/429/rate-limit shaped messages are retried. -/
def isRetryableMessage (msg : String) : Bool :=
  strContains msg "quota" || strContains msg "429" || strContains msg "Rate limit"

/-! ### `retryWithBackoff` (lines 158-196)

The loop runs `attempt = 0 .. maxRetries-1`; the embedding recurses on the
number of remaining attempts.  Each iteration checks the rate limiter,
invokes the operation, credits the limiter only on success, classifies a
failure, and sleeps `delay` (advancing the clock and logging the delay)
before the next attempt with `delay = min(delay * backoffFactor, maxDelay)`.
A non-retryable failure is re-raised at once; after the last attempt the
last error is re-raised.  With `maxRetries = 0` the source throws the
initial `null`. -/

def retryAux (op : World → Except String String × World) (cfg : RetryConfig) :
    Nat → Nat → World → Except String String × World
  | 0, _, w => (.error "null", w)
  | rem + 1, delay, w =>
      let pr := canMakeRequest w.now w.cm
      let w1 := { w with cm := pr.2 }
      let step : Except String String × World :=
        if pr.1 then op w1
        else
          let na := getNextAvailableTime w1.now w1.cm
          (.error (rateLimitMessage na.1), { w1 with cm := na.2 })
      match step with
      | (.ok result, w') => (.ok result, { w' with cm := recordRequest w'.now w'.cm })
      | (.error e, w') =>
          if !(isRetryableMessage e) then (.error e, w')
          else if rem == 0 then (.error e, w')
          else
            retryAux op cfg rem (min (delay * cfg.backoffFactor) cfg.maxDelay)
              { w' with now := w'.now + delay, sleeps := w'.sleeps ++ [delay] }

def retryWithBackoff (op : World → Except String String × World)
    (retryConfig : RetryConfig) (w : World) : Except String String × World :=
  retryAux op retryConfig retryConfig.maxRetries retryConfig.initialDelay w

/-! ### `callGeminiVision` (lines 259-376) -/

/-- The async closure passed to `retryWithBackoff` (lines 275-375): its own
rate-limit check, the analysis-endpoint fetch, the 429/403/other error
branches with their state updates, and on success the cache write followed
by resetting the transient state.  The functional updaters
`setRetryCount(prev => prev + 1)` and
`setRetryDelay(prev => Math.min(prev * 2 || initialDelay, maxDelay))` read
the threaded (current) state. -/
def geminiOp (hash : String → String) (uploadedImage prompt : String)
    (w : World) : Except String String × World :=
  let pr := canMakeRequest w.now w.cm
  let w := { w with cm := pr.2 }
  if !pr.1 then
    let na := getNextAvailableTime w.now w.cm
    let msg := rateLimitMessage na.1
    let r' := { w.react with rateLimitStatus := some msg }
    (.error msg, { w with cm := na.2, react := r' })
  else
    let outcome := w.net w.dispatches
    let w := { w with dispatches := w.dispatches + 1 }
    match outcome with
    | .reject m => (.error m, w)
    | .resp status body =>
        if !responseOk status then
          if status == 429 then
            let r1 := { w.react with retryCount := w.react.retryCount + 1 }
            let d2 := min (jsOrNat (r1.retryDelay * 2) RETRY_CONFIG.initialDelay) RETRY_CONFIG.maxDelay
            let r2 := { r1 with retryDelay := d2 }
            (.error quotaExceededMessage, { w with react := r2 })
          else if status == 403 then
            (.error accessDeniedMessage, w)
          else
            match body.errorMessage with
            | some m => (.error ("Gemini API error: " ++ m), w)
            | none => (.error ("API request failed with status " ++ toString status), w)
        else
          if !body.contentPresent then
            (.error noResponseMessage, w)
          else
            match body.partsText with
            | none =>
                -- reading `.parts[0].text` of a malformed candidate throws a
                -- TypeError, re-raised by the closing catch (lines 369-374)
                (.error "TypeError: cannot read parts of the response", w)
            | some result =>
                let cm' := CacheManager.set hash w.now w.cm uploadedImage prompt result
                let r' := { w.react with retryCount := 0, retryDelay := 0, cacheStatus := none, rateLimitStatus := none }
                (.ok result, { w with cm := cm', react := r' })

/-- `callGeminiVision`: missing key fails immediately; a fresh unexpired
cache entry for `(hash(uploadedImage), prompt)` is returned without any
network traffic; otherwise the fetch closure runs under
`retryWithBackoff`.  The non-null assertion `uploadedImage!` is modelled
with a default. -/
def callGeminiVision (hash : String → String) (apiKey : Option String)
    (uploadedImage : Option String) (_imageBase64 prompt : String)
    (w : World) : Except String String × World :=
  match apiKey with
  | none => (.error apiKeyMissingMessage, w)
  | some _ =>
      let url := uploadedImage.getD ""
      let gr := CacheManager.get hash w.now w.cm url prompt
      match gr.1 with
      | some cachedResult =>
          let r' := { w.react with cacheStatus := some "Using cached result" }
          (.ok cachedResult, { w with cm := gr.2, react := r' })
      | none =>
          let r' := { w.react with cacheStatus := some "Cache miss - calling API" }
          let w := { w with cm := gr.2, react := r' }
          retryWithBackoff (geminiOp hash url prompt) RETRY_CONFIG w

/-! ### The prompts (lines 212-232 and 484-516) -/

/-- The hidden `SYSTEM_PROMPT`. -/
def SYSTEM_PROMPT : String :=
  "You are a civil engineer and architect AI specializing in infrastructure completion and restoration. Your task is to analyze the provided image and description of incomplete or damaged infrastructure. Focus on:\n\n1. Identifying missing or incomplete structural elements\n2. Analyzing the current state of the infrastructure\n3. Providing detailed recommendations for completion and restoration\n4. Ensuring compliance with Indian safety codes and structural standards\n\nFor the analysis, consider:\n- Structural integrity and safety requirements\n- Modern construction materials and techniques\n- Cost-effective solutions\n- Required permits and approvals\n- Timeline for completion\n\nProvide your analysis in a structured format with clear sections for:\n- Current State Assessment\n- Required Completion Work\n- Safety and Compliance Requirements\n- Cost Estimation\n- Timeline and Phases\n- Required Permits and Approvals"

/-- The tail of the combined analysis prompt: instructions plus the JSON
output schema the model is asked to follow. -/
def fullPromptTail : String :=
  "\n\nPlease analyze the image and description to provide a comprehensive infrastructure completion plan. Include specific details about:\n1. What elements are missing or incomplete\n2. What needs to be added or repaired\n3. How to ensure structural integrity\n4. Cost estimates for completion\n5. Required safety measures and compliance\n\nPlease provide your response in the following JSON format:\n\x7b\n  \"repair_description\": \x7b\n    \"current_state\": \"Analysis of current infrastructure state\",\n    \"completion_requirements\": \"Detailed list of what needs to be completed\",\n    \"safety_measures\": \"Required safety features and compliance measures\",\n    \"recommendations\": \"Step-by-step recommendations for completion\"\n  \x7d,\n  \"cost_estimation\": \x7b\n    \"total\": \"₹X,XX,XXX INR\",\n    \"breakdown\": \x7b\n      \"materials\": \"₹XX,XXX INR\",\n      \"labor\": \"₹XX,XXX INR\",\n      \"permits\": \"₹XX,XXX INR\",\n      \"safety_equipment\": \"₹XX,XXX INR\"\n    \x7d\n  \x7d,\n  \"timeline\": \x7b\n    \"estimated_duration\": \"X weeks/months\",\n    \"phases\": [\"Phase 1: ...\", \"Phase 2: ...\"]\n  \x7d\n\x7d"

/-- The combined prompt built in `handleGenerateReport` (lines 484-516):
system prompt, the user description, then the schema instructions. -/
def fullPrompt (userDescription : String) : String :=
  SYSTEM_PROMPT ++ "\n\nUser\x27s Infrastructure Description: " ++ userDescription ++ fullPromptTail

/-! ### Visualization step (lines 378-459) -/

/-- The prompt `generateImageDescription` derives from the analysis text:
its first 500 characters spliced into a fixed template (line 385). -/
def imageDescriptionPrompt (analysisText : String) : String :=
  "Based on this structural analysis: \"" ++ String.mk (analysisText.data.take 500) ++
  "...\", create a detailed description for generating an image of a fully restored Indian commercial building/viaduct structure. The description should include: modern materials, proper safety features, compliance with Indian building codes, professional finish, contemporary Indian infrastructure design elements, proper concrete finishing, modern safety railings, and urban Indian setting. Make it suitable for AI image generation."

/-- `generateImageDescription` (lines 378-418): missing key throws; a
non-2xx response throws a `Gemini API error`; a 2xx response is read with
the unguarded chain `data.candidates[0].content.parts[0].text`, so a
malformed body throws a TypeError.  Every one of these failures propagates
to the caller. -/
def generateImageDescription (apiKey : Option String) (analysisText : String)
    (outcome : FetchOutcome) : Except String String :=
  match apiKey with
  | none => .error apiKeyMissingMessage
  | some _ =>
      let _imagePrompt := imageDescriptionPrompt analysisText
      match outcome with
      | .reject m => .error m
      | .resp status body =>
          if !responseOk status then
            .error ("Gemini API error: " ++ body.errorMessage.getD "Unknown error")
          else
            match body.partsText with
            | none => .error "TypeError: cannot read parts of the response"
            | some text => .ok text

/-- The fixed inline SVG placeholder returned when the Imagen endpoint is
unavailable or returns no image (lines 449 and 458, identical strings). -/
def placeholderImage : String :=
  "data:image/svg+xml;base64,PHN2ZyB3aWR0aD0iNTEyIiBoZWlnaHQ9IjUxMiIgeG1sbnM9Imh0dHA6Ly93d3cudzMub3JnLzIwMDAvc3ZnIj4KICA8cmVjdCB3aWR0aD0iNTEyIiBoZWlnaHQ9IjUxMiIgZmlsbD0iI2Y3ZjhmOSIvPgogIDx0ZXh0IHg9IjUwJSIgeT0iNDAlIiBmb250LWZhbWlseT0iQXJpYWwsIHNhbnMtc2VyaWYiIGZvbnQtc2l6ZT0iMjQiIGZpbGw9IiM2YjczODAiIHRleHQtYW5jaG9yPSJtaWRkbGUiPgogICAgUmVzdG9yZWQgU3RydWN0dXJlCiAgPC90ZXh0PgogIDx0ZXh0IHg9IjUwJSIgeT0iNjAlIiBmb250LWZhbWlseT0iQXJpYWwsIHNhbnMtc2VyaWYiIGZvbnQtc2l6ZT0iMTYiIGZpbGw9IiM5Y2EzYWYiIHRleHQtYW5jaG9yPSJtaWRkbGUiPgogICAgVmlzdWFsaXphdGlvbgogIDwvdGV4dD4KPC9zdmc+"

/-- `generateRepairedImageWithGemini` (lines 420-459): derives the enhanced
description through `generateImageDescription` — whose failures are NOT
caught and therefore propagate — then requests an image from the Imagen
endpoint.  Only a resolved non-2xx response or a resolved response without
a generated image are replaced by the placeholder; a rejected Imagen fetch
propagates as well. -/
def generateRepairedImageWithGemini (apiKey : Option String) (description : String)
    (descOutcome : FetchOutcome) (imagenOutcome : ImagenOutcome) : Except String String :=
  match apiKey with
  | none => .error apiKeyMissingMessage
  | some _ =>
      match generateImageDescription apiKey description descOutcome with
      | .error e => .error e
      | .ok _enhancedDescription =>
          match imagenOutcome with
          | .reject m => .error m
          | .resp status body =>
              if !responseOk status then
                .ok placeholderImage
              else
                match body.generatedImage with
                | some bytes => .ok ("data:image/png;base64," ++ bytes)
                | none => .ok placeholderImage

/-! ### The structured-output parse step with fallback (lines 524-557) -/

/-- The `repair_description` object of the fallback report: the raw
analysis text is kept verbatim as `current_state`. -/
def fallbackRepairDescription (analysisResponse : String) : Json :=
  .obj [("current_state", .str analysisResponse),
        ("completion_requirements", .str "See detailed analysis above"),
        ("safety_measures", .str "Standard safety protocols apply"),
        ("recommendations", .str "Follow standard construction guidelines")]

/-- The fixed placeholder cost estimation of the fallback report. -/
def fallbackCostEstimation : Json :=
  .obj [("total", .str "₹3,00,000 INR"),
        ("breakdown", .obj [("materials", .str "₹1,00,000 INR"),
                            ("labor", .str "₹1,50,000 INR"),
                            ("permits", .str "₹25,000 INR"),
                            ("safety_equipment", .str "₹25,000 INR")])]

/-- The fixed placeholder timeline of the fallback report. -/
def fallbackTimeline : Json :=
  .obj [("estimated_duration", .str "3 months"),
        ("phases", .arr [.str "Phase 1: Initial assessment and planning",
                         .str "Phase 2: Construction and completion"])]

def fallbackParsedResponse (analysisResponse : String) : Json :=
  .obj [("repair_description", fallbackRepairDescription analysisResponse),
        ("cost_estimation", fallbackCostEstimation),
        ("timeline", fallbackTimeline)]

/-- Lines 525-557: extract with the greedy regex, `JSON.parse` the match
(`jsonParse` is the browser builtin, `none` = thrown `SyntaxError`); any
failure — no match or a parse error — falls back to the synthesized
report that wraps the raw response text. -/
def parseAnalysisResponse (jsonParse : String → Option Json)
    (analysisResponse : String) : Json :=
  match jsonMatch analysisResponse with
  | some block =>
      match jsonParse block with
      | some v => v
      | none => fallbackParsedResponse analysisResponse
  | none => fallbackParsedResponse analysisResponse

/-- Assembly of `finalReportData` (lines 559-564). -/
def mkFinalReport (jsonParse : String → Option Json)
    (analysisResponse repairedImageUrl : String) : ReportData :=
  let parsedResponse := parseAnalysisResponse jsonParse analysisResponse
  { repaired_image_url := repairedImageUrl,
    repair_description := parsedResponse.getField "repair_description",
    cost_estimation := parsedResponse.getField "cost_estimation",
    timeline := parsedResponse.getField "timeline" }

/-! ### The orchestrator `handleGenerateReport` (lines 461-600)

The handler is an async closure created at render time: reads of state
variables inside it (`uploadedImage`, `userDescription`, `retryCount` in the
catch and finally blocks) see the render snapshot `snap`, while the `setX`
calls it triggers update the threaded `World.react`. -/

/-- A JavaScript thrown value: an `Error` with a message, or any other
value (`convertImageToBase64` rejects with the raw `onerror` event, which
is not an `instanceof Error`). -/
inductive Thrown where
  | jsError : String → Thrown
  | jsOther : Thrown

/-- The run's external collaborators: the content digest, the `JSON.parse`
builtin, the configured credential, the image-transcoding outcome and the
oracles for the two visualization fetches. -/
structure RunEnv where
  hash : String → String
  jsonParse : String → Option Json
  apiKey : Option String
  convertResult : Except Unit String
  descOutcome : FetchOutcome
  imagenOutcome : ImagenOutcome

/-- The five state updates at the top of the run (lines 472-476). -/
def startReact (r : ReactState) : ReactState :=
  { r with isLoading := true, error := none, processingStep := "Converting image...", retryCount := 0, retryDelay := 0 }

def startWorld (w : World) : World :=
  { w with react := startReact w.react }

/-- Step 2 of the run: set the progress text, build the combined prompt and
invoke the analysis call (lines 483-518). -/
def analysisStep (env : RunEnv) (snap : ReactState) (imageBase64 : String)
    (w : World) : Except String String × World :=
  let w := { w with react := { w.react with processingStep := "Analyzing infrastructure with Gemini AI..." } }
  callGeminiVision env.hash env.apiKey snap.uploadedImage imageBase64
    (fullPrompt snap.userDescription) w

/-- The body of the `try` block (lines 478-567): convert, analyze,
visualize, parse, assemble.  Returns the world together with the thrown
value the `catch` receives, if any. -/
def runTry (env : RunEnv) (snap : ReactState) (w : World) : World × Option Thrown :=
  match env.convertResult with
  | .error _ => (w, some Thrown.jsOther)
  | .ok imageBase64 =>
      match analysisStep env snap imageBase64 w with
      | (.error e, w') => (w', some (Thrown.jsError e))
      | (.ok analysisResponse, w') =>
          let w' := { w' with react := { w'.react with processingStep := "Generating completed infrastructure visualization..." } }
          match generateRepairedImageWithGemini env.apiKey analysisResponse env.descOutcome env.imagenOutcome with
          | .error e => (w', some (Thrown.jsError e))
          | .ok repairedImageUrl =>
              let finalReportData := mkFinalReport env.jsonParse analysisResponse repairedImageUrl
              let r' := { w'.react with reportData := some finalReportData, processingStep := "" }
              ({ w' with react := r' }, none)

/-- The long quota-exhaustion message (lines 575-580). -/
def maxRetryReachedText : String :=
  "\n\nMaximum retry attempts reached. API Quota Exceeded\n" ++
  "The application has reached its API usage limit. Please:\n" ++
  "1. Try again later\n" ++
  "2. Check your Google Cloud Console for quota status\n" ++
  "3. Consider upgrading your API quota if needed\n\n" ++
  "For more information, visit: https://ai.google.dev/gemini-api/docs/rate-limits"

/-- The catch block's message construction (lines 568-589).  `retryCount`
here is the render-time snapshot value — the closure never observes the
`setRetryCount` updates made during this run. -/
def catchMessage (snap : ReactState) : Thrown → String
  | Thrown.jsOther => "Failed to generate report. " ++ "An unexpected error occurred. Please try again."
  | Thrown.jsError msg =>
      if strContains msg "quota" || strContains msg "429" then
        if RETRY_CONFIG.maxRetries ≤ snap.retryCount then
          "Failed to generate report. " ++ maxRetryReachedText
        else
          "Retrying automatically (Attempt " ++ toString (snap.retryCount + 1) ++ "/" ++
            toString RETRY_CONFIG.maxRetries ++ ")..."
      else
        "Failed to generate report. " ++ msg

/-- Apply the catch block (lines 568-594): set the error message and, when
it is not a retrying notice, clear the progress text. -/
def applyCatch (snap : ReactState) (w : World) : Option Thrown → World
  | none => w
  | some t =>
      let errorMessage := catchMessage snap t
      let r := { w.react with error := some errorMessage }
      let r := if strContains errorMessage "Retrying" then r else { r with processingStep := "" }
      { w with react := r }

/-- The finally block (lines 595-599): `isLoading` is reset only when the
snapshot `retryCount` has reached the retry ceiling. -/
def applyFinally (snap : ReactState) (w : World) : World :=
  if RETRY_CONFIG.maxRetries ≤ snap.retryCount then
    { w with react := { w.react with isLoading := false } }
  else w

/-- `handleGenerateReport` (lines 461-600): validation, the initial state
updates, the try block, the catch and the finally. -/
def handleGenerateReport (env : RunEnv) (snap : ReactState) (w : World) : World :=
  match snap.uploadedImage with
  | none =>
      { w with react := { w.react with error := some "Please upload an image of the infrastructure." } }
  | some _ =>
      if jsTrim snap.userDescription == "" then
        { w with react := { w.react with error := some "Please provide a description of the infrastructure and what needs to be completed." } }
      else
        let w1 := startWorld w
        let tr := runTry env snap w1
        let w3 := applyCatch snap tr.1 tr.2
        applyFinally snap w3

/-! ### Lemmas about the JavaScript `Map` model -/

theorem mapGet_mapSet_self (m : List (String × CacheEntry)) (k : String) (v : CacheEntry) :
    mapGet (mapSet m k v) k = some v := by
  induction m with
  | nil => simp [mapGet, mapSet]
  | cons p rest ih =>
      obtain ⟨k', v'⟩ := p
      by_cases h : k' == k
      · simp [mapSet, h, mapGet]
      · simp [mapSet, h, mapGet, ih]

theorem mapGet_mapDelete_self (m : List (String × CacheEntry)) (k : String) :
    mapGet (mapDelete m k) k = none := by
  induction m with
  | nil => simp [mapGet, mapDelete]
  | cons p rest ih =>
      obtain ⟨k', v'⟩ := p
      by_cases h : k' == k
      · simpa [mapDelete, h] using ih
      · simpa [mapDelete, h, mapGet] using ih

/-! ### Claim C8: cache round-trip and expiry -/

/-- C8: for every key `(contentHash, requestIntent)` and value, a `put`
immediately followed by a `get` with the same key returns the stored value;
and an entry whose age is at least `maxAge` is never returned by `get` and
is deleted from the in-memory store by the lookup. -/
theorem cache_put_get_and_expiry (hash : String → String) (now now' : Nat)
    (s : CMState) (imageUrl prompt data : String) (e : CacheEntry) :
    (CacheManager.get hash now (CacheManager.set hash now s imageUrl prompt data) imageUrl prompt).1
      = some data
    ∧ (mapGet s.cache (hash imageUrl ++ "-" ++ prompt) = some e →
        e.timestamp + CACHE_CONFIG.maxAge ≤ now' →
        (CacheManager.get hash now' s imageUrl prompt).1 = none
        ∧ mapGet (CacheManager.get hash now' s imageUrl prompt).2.cache
            (hash imageUrl ++ "-" ++ prompt) = none) := by
  constructor
  · unfold CacheManager.get CacheManager.set
    simp only [mapGet_mapSet_self]
    norm_num [CACHE_CONFIG]
  · intro hmem hexp
    have hage : ¬ (now' - e.timestamp < CACHE_CONFIG.maxAge) := by omega
    unfold CacheManager.get
    simp [hmem, hage, mapGet_mapDelete_self]

theorem cache_put_get_and_expiry_witness :
    (CacheManager.get (fun s => s) 5
        (CacheManager.set (fun s => s) 5 (CacheManager.new none) "img" "p" "value") "img" "p").1
      = some "value"
    ∧ ((CacheManager.get (fun s => s) 86400007
          { cache := [("img-p", { data := "old", timestamp := 7, imageHash := "img" })],
            requestTimestamps := [], storageGeminiApiCache := none } "img" "p").1 = none
        ∧ mapGet (CacheManager.get (fun s => s) 86400007
            { cache := [("img-p", { data := "old", timestamp := 7, imageHash := "img" })],
              requestTimestamps := [], storageGeminiApiCache := none } "img" "p").2.cache
            ("img" ++ "-" ++ "p") = none) :=
  ⟨(cache_put_get_and_expiry (fun s => s) 5 5 (CacheManager.new none) "img" "p" "value"
      { data := "old", timestamp := 7, imageHash := "img" }).1,
   (cache_put_get_and_expiry (fun s => s) 86400007 86400007
      { cache := [("img-p", { data := "old", timestamp := 7, imageHash := "img" })],
        requestTimestamps := [], storageGeminiApiCache := none } "img" "p" "value"
      { data := "old", timestamp := 7, imageHash := "img" }).2 (by decide) (by decide)⟩

/-! ### Claim C10: expiry deletion never touches the durable store -/

/-- C10: `get` never writes the `geminiApiCache` record in durable storage
(`saveToLocalStorage` runs only inside `set`), so an expired entry that
`get` removes from the in-memory map survives in durable storage and is
loaded back into the in-memory cache when a new session constructs the
manager. -/
theorem cache_get_preserves_durable_store (hash : String → String) (now : Nat)
    (s : CMState) (imageUrl prompt : String) (L : List (String × CacheEntry)) (e : CacheEntry) :
    (CacheManager.get hash now s imageUrl prompt).2.storageGeminiApiCache
      = s.storageGeminiApiCache
    ∧ (s.storageGeminiApiCache = some L →
        mapGet s.cache (hash imageUrl ++ "-" ++ prompt) = some e →
        e.timestamp + CACHE_CONFIG.maxAge ≤ now →
        mapGet L (hash imageUrl ++ "-" ++ prompt) = some e →
        mapGet (CacheManager.get hash now s imageUrl prompt).2.cache
            (hash imageUrl ++ "-" ++ prompt) = none
        ∧ mapGet (CacheManager.new
              (CacheManager.get hash now s imageUrl prompt).2.storageGeminiApiCache).cache
            (hash imageUrl ++ "-" ++ prompt) = some e) := by
  constructor
  · unfold CacheManager.get
    cases hmg : mapGet s.cache (hash imageUrl ++ "-" ++ prompt) with
    | none => simp [hmg]
    | some entry =>
        by_cases hage : now - entry.timestamp < CACHE_CONFIG.maxAge
        · simp [hmg, hage]
        · simp [hmg, hage]
  · intro hst hmem hexp hstmem
    have hage : ¬ (now - e.timestamp < CACHE_CONFIG.maxAge) := by omega
    unfold CacheManager.get
    simp [hmem, hage, mapGet_mapDelete_self, CacheManager.new, hst, hstmem]

theorem cache_get_preserves_durable_store_witness :
    mapGet ((CacheManager.get (fun s => s) 86400007
        { cache := [("img-p", { data := "old", timestamp := 7, imageHash := "img" })],
          requestTimestamps := [],
          storageGeminiApiCache := some [("img-p", { data := "old", timestamp := 7, imageHash := "img" })] }
        "img" "p").2).cache ("img" ++ "-" ++ "p") = none
    ∧ mapGet (CacheManager.new ((CacheManager.get (fun s => s) 86400007
        { cache := [("img-p", { data := "old", timestamp := 7, imageHash := "img" })],
          requestTimestamps := [],
          storageGeminiApiCache := some [("img-p", { data := "old", timestamp := 7, imageHash := "img" })] }
        "img" "p").2).storageGeminiApiCache).cache ("img" ++ "-" ++ "p")
      = some { data := "old", timestamp := 7, imageHash := "img" } :=
  (cache_get_preserves_durable_store (fun s => s) 86400007
      { cache := [("img-p", { data := "old", timestamp := 7, imageHash := "img" })],
        requestTimestamps := [],
        storageGeminiApiCache := some [("img-p", { data := "old", timestamp := 7, imageHash := "img" })] }
      "img" "p" [("img-p", { data := "old", timestamp := 7, imageHash := "img" })]
      { data := "old", timestamp := 7, imageHash := "img" }).2
    (by decide) (by decide) (by decide) (by decide)

/-! ### Claim C7: the sliding rate-limiter window -/

/-- C7: with `maxRequestsPerMinute` timestamps all inside the window,
`canMakeRequest` is `false`; once the cooldown period has elapsed since the
oldest recorded timestamp it is `true` again with no further `recordRequest`,
because the check prunes timestamps older than the window before comparing
the count to the maximum. -/
theorem rate_limiter_window (s : CMState) (now1 now2 o : Nat)
    (hlen : s.requestTimestamps.length = RATE_LIMIT_CONFIG.maxRequestsPerMinute)
    (hin : ∀ t ∈ s.requestTimestamps, now1 - t < RATE_LIMIT_CONFIG.cooldownPeriod)
    (homem : o ∈ s.requestTimestamps)
    (_homin : ∀ t ∈ s.requestTimestamps, o ≤ t)
    (helapsed : o + RATE_LIMIT_CONFIG.cooldownPeriod ≤ now2) :
    (canMakeRequest now1 s).1 = false ∧ (canMakeRequest now2 s).1 = true := by
  constructor
  · unfold canMakeRequest
    have hall : s.requestTimestamps.filter
        (fun t => now1 - t < RATE_LIMIT_CONFIG.cooldownPeriod) = s.requestTimestamps := by
      apply List.filter_eq_self.mpr
      intro t ht
      exact decide_eq_true (hin t ht)
    simp [hall, hlen]
  · unfold canMakeRequest
    have hlt : (s.requestTimestamps.filter
        (fun t => now2 - t < RATE_LIMIT_CONFIG.cooldownPeriod)).length
        < s.requestTimestamps.length := by
      rw [List.length_filter_lt_length_iff_exists]
      refine ⟨o, homem, ?_⟩
      simp only [decide_eq_true_eq, not_lt]
      omega
    simp only [decide_eq_true_eq]
    rw [hlen] at hlt
    simpa using hlt

/-- A full ten-request window used to exercise `rate_limiter_window`. -/
def fullWindowState : CMState :=
  { cache := [], requestTimestamps := [0, 1, 2, 3, 4, 5, 6, 7, 8, 9], storageGeminiApiCache := none }

theorem rate_limiter_window_witness :
    (canMakeRequest 10 fullWindowState).1 = false
    ∧ (canMakeRequest 60000 fullWindowState).1 = true :=
  rate_limiter_window fullWindowState 10 60000 0
    (by decide) (by decide) (by decide) (by decide) (by decide)

/-! ### Claim C6: retry exhaustion under always-retryable failures -/

/-- An operation that fails on every invocation: invocation `n` of the run
raises `errs n` (the world's dispatch counter doubles as the invocation
counter). -/
def constFailOp (errs : Nat → String) : World → Except String String × World :=
  fun w => (.error (errs w.dispatches), { w with dispatches := w.dispatches + 1 })

/-- C6: an operation failing with a retryable (quota/rate-limit shaped)
error on every attempt is invoked exactly `maxRetries = 3` times by
`retryWithBackoff`, the slept delays are `[2000, 4000]` — non-decreasing and
never above `maxDelay = 30000` — and the last retryable error is re-raised
after exhaustion. -/
theorem retry_exhaustion (errs : Nat → String) (w : World)
    (hretry : ∀ n, isRetryableMessage (errs n) = true)
    (hts : w.cm.requestTimestamps = []) :
    (retryWithBackoff (constFailOp errs) RETRY_CONFIG w).1 = .error (errs (w.dispatches + 2))
    ∧ (retryWithBackoff (constFailOp errs) RETRY_CONFIG w).2.dispatches = w.dispatches + 3
    ∧ (retryWithBackoff (constFailOp errs) RETRY_CONFIG w).2.sleeps = w.sleeps ++ [2000, 4000]
    ∧ List.Chain' (fun a b => a ≤ b) [2000, 4000]
    ∧ (∀ d ∈ [2000, 4000], d ≤ RETRY_CONFIG.maxDelay) := by
  obtain ⟨now, cm, react, net, dispatches, sleeps⟩ := w
  obtain ⟨cache, ts, st⟩ := cm
  simp only at hts
  subst hts
  refine ⟨?_, ?_, ?_, by norm_num [List.chain'_cons], by decide⟩ <;>
    simp [retryWithBackoff, retryAux, constFailOp, canMakeRequest, RETRY_CONFIG,
      RATE_LIMIT_CONFIG, hretry]

/-- A world with an idle limiter used to exercise `retry_exhaustion`. -/
def idleWorld : World :=
  { now := 0, cm := { cache := [], requestTimestamps := [], storageGeminiApiCache := none },
    react := initialReactState, net := fun _ => FetchOutcome.reject "down",
    dispatches := 0, sleeps := [] }

theorem retry_exhaustion_witness :
    (retryWithBackoff (constFailOp (fun _ => quotaExceededMessage)) RETRY_CONFIG idleWorld).1
      = .error quotaExceededMessage
    ∧ (retryWithBackoff (constFailOp (fun _ => quotaExceededMessage)) RETRY_CONFIG idleWorld).2.dispatches
      = 3
    ∧ (retryWithBackoff (constFailOp (fun _ => quotaExceededMessage)) RETRY_CONFIG idleWorld).2.sleeps
      = [2000, 4000] := by
  have hq : isRetryableMessage quotaExceededMessage = true := by decide
  have h := retry_exhaustion (fun _ => quotaExceededMessage) idleWorld
    (fun _ => hq) (by decide)
  exact ⟨h.1, h.2.1, h.2.2.1⟩

/-! ### Claim C5: cache hit skips the network, miss dispatches and caches -/

/-- C5: when the cache holds an unexpired entry for
`(hash(image), prompt)`, the analysis call dispatches nothing and returns
the cached value; on a miss (the rate limiter permitting) the call goes out
through the retry controller exactly once for an immediately successful
response, which is written into the cache (stamped with the current time)
before the call returns. -/
theorem analysis_cache_hit_and_miss (hash : String → String) (apiKey : String)
    (uploadedImage imageBase64 prompt text : String) (w : World) (e : CacheEntry) (body : GeminiBody) :
    (mapGet w.cm.cache (hash uploadedImage ++ "-" ++ prompt) = some e →
      w.now - e.timestamp < CACHE_CONFIG.maxAge →
      (callGeminiVision hash (some apiKey) (some uploadedImage) imageBase64 prompt w).1 = .ok e.data
      ∧ (callGeminiVision hash (some apiKey) (some uploadedImage) imageBase64 prompt w).2.dispatches
          = w.dispatches)
    ∧ (mapGet w.cm.cache (hash uploadedImage ++ "-" ++ prompt) = none →
       (w.cm.requestTimestamps.filter
           (fun t => w.now - t < RATE_LIMIT_CONFIG.cooldownPeriod)).length
           < RATE_LIMIT_CONFIG.maxRequestsPerMinute →
       w.net w.dispatches = FetchOutcome.resp 200 body →
       body.contentPresent = true →
       body.partsText = some text →
       (callGeminiVision hash (some apiKey) (some uploadedImage) imageBase64 prompt w).1 = .ok text
       ∧ (callGeminiVision hash (some apiKey) (some uploadedImage) imageBase64 prompt w).2.dispatches
           = w.dispatches + 1
       ∧ mapGet (callGeminiVision hash (some apiKey) (some uploadedImage) imageBase64 prompt w).2.cm.cache
             (hash uploadedImage ++ "-" ++ prompt)
           = some { data := text, timestamp := w.now, imageHash := hash uploadedImage }) := by
  constructor
  · intro hmem hage
    constructor <;>
      simp [callGeminiVision, CacheManager.get, hmem, hage]
  · intro hmiss hcan hnet hcp hpt
    have hcan' : decide ((w.cm.requestTimestamps.filter
        (fun t => w.now - t < RATE_LIMIT_CONFIG.cooldownPeriod)).length
        < RATE_LIMIT_CONFIG.maxRequestsPerMinute) = true := decide_eq_true hcan
    refine ⟨?_, ?_, ?_⟩ <;>
      simp [callGeminiVision, CacheManager.get, hmiss, retryWithBackoff, RETRY_CONFIG, retryAux,
        geminiOp, canMakeRequest, hcan', List.filter_filter, hnet, hcp, hpt, responseOk,
        recordRequest, CacheManager.set, mapGet_mapSet_self]

/-- A cache already holding an unexpired entry for `("img", "p")`. -/
def hitWorld : World :=
  { idleWorld with
    cm := { cache := [("img-p", { data := "cached", timestamp := 0, imageHash := "img" })],
            requestTimestamps := [], storageGeminiApiCache := none },
    now := 5 }

/-- An empty cache with a successful analysis response on the wire. -/
def missWorld : World :=
  { idleWorld with
    net := fun _ =>
      FetchOutcome.resp 200 { errorMessage := none, contentPresent := true, partsText := some "fresh" } }

theorem analysis_cache_hit_and_miss_witness :
    ((callGeminiVision (fun s => s) (some "k") (some "img") "b64" "p" hitWorld).1 = .ok "cached"
      ∧ (callGeminiVision (fun s => s) (some "k") (some "img") "b64" "p" hitWorld).2.dispatches = 0)
    ∧ ((callGeminiVision (fun s => s) (some "k") (some "img") "b64" "p" missWorld).1 = .ok "fresh"
      ∧ (callGeminiVision (fun s => s) (some "k") (some "img") "b64" "p" missWorld).2.dispatches = 1
      ∧ mapGet (callGeminiVision (fun s => s) (some "k") (some "img") "b64" "p" missWorld).2.cm.cache
            ("img" ++ "-" ++ "p")
          = some { data := "fresh", timestamp := 0, imageHash := "img" }) := by
  constructor
  · exact (analysis_cache_hit_and_miss (fun s => s) "k" "img" "b64" "p" "fresh" hitWorld
      { data := "cached", timestamp := 0, imageHash := "img" }
      { errorMessage := none, contentPresent := true, partsText := some "fresh" }).1
      (by decide) (by decide)
  · exact (analysis_cache_hit_and_miss (fun s => s) "k" "img" "b64" "p" "fresh" missWorld
      { data := "cached", timestamp := 0, imageHash := "img" }
      { errorMessage := none, contentPresent := true, partsText := some "fresh" }).2
      (by decide) (by decide) rfl rfl rfl

/-! ### Claim C3: what the extraction step actually extracts -/

theorem dropWhile_append_of_all (pred : Char → Bool) (p l : List Char)
    (h : ∀ a ∈ p, pred a = true) :
    List.dropWhile pred (p ++ l) = List.dropWhile pred l := by
  induction p with
  | nil => rfl
  | cons a as ih =>
      simp only [List.cons_append, List.dropWhile_cons, h a (List.mem_cons_self a as), if_true]
      exact ih (fun x hx => h x (List.mem_cons_of_mem a hx))

/-- C3 counterexample: on a response holding two balanced blocks the greedy
regex grabs the span from the first opening brace to the last closing brace,
which is not the first balanced JSON-like block. -/
theorem jsonMatch_not_first_balanced :
    jsonMatch "\x7ba\x7d tail \x7bb\x7d" = some "\x7ba\x7d tail \x7bb\x7d"
    ∧ firstBalancedBlock "\x7ba\x7d tail \x7bb\x7d" = some "\x7ba\x7d"
    ∧ ¬ jsonMatch "\x7ba\x7d tail \x7bb\x7d" = firstBalancedBlock "\x7ba\x7d tail \x7bb\x7d" :=
  ⟨by decide, by decide, by decide⟩

/-- C3 as amended: the parse step extracts the span running from the first
opening brace of the response to the last closing brace (the block handed
to `JSON.parse`), which coincides with the first balanced block only when
no brace follows that block. -/
theorem jsonMatch_first_to_last (p m q : List Char)
    (hp : ∀ c ∈ p, c ≠ openBrace)
    (hq : ∀ c ∈ q, c ≠ closeBrace) :
    jsonMatch (String.mk (p ++ openBrace :: (m ++ closeBrace :: q)))
      = some (String.mk (openBrace :: (m ++ [closeBrace]))) := by
  have h1 : List.dropWhile (fun c => !(c == openBrace))
      (p ++ openBrace :: (m ++ closeBrace :: q)) = openBrace :: (m ++ closeBrace :: q) := by
    rw [dropWhile_append_of_all _ _ _ (fun a ha => by simpa using hp a ha)]
    simp [List.dropWhile_cons]
  have h2 : List.dropWhile (fun c => !(c == closeBrace))
      ((openBrace :: (m ++ closeBrace :: q)).reverse)
      = closeBrace :: (m.reverse ++ [openBrace]) := by
    have hrev : (openBrace :: (m ++ closeBrace :: q)).reverse
        = q.reverse ++ (closeBrace :: (m.reverse ++ [openBrace])) := by
      simp [List.reverse_cons, List.reverse_append, List.append_assoc]
    rw [hrev, dropWhile_append_of_all _ _ _
      (fun a ha => by simpa using hq a (List.mem_reverse.mp ha))]
    simp [List.dropWhile_cons]
  simp only [jsonMatch, jsonMatchList, h1, h2]
  simp

theorem jsonMatch_first_to_last_witness :
    jsonMatch (String.mk (['a'] ++ openBrace :: (['b', closeBrace, 'c'] ++ closeBrace :: ['d'])))
      = some (String.mk (openBrace :: (['b', closeBrace, 'c'] ++ [closeBrace]))) :=
  jsonMatch_first_to_last ['a'] ['b', closeBrace, 'c'] ['d'] (by decide) (by decide)

/-! ### Claim C2: three consecutive 429 responses -/

/-- A 429 response body (its fields are never read past the status). -/
def body429 : GeminiBody := { errorMessage := none, contentPresent := false, partsText := none }

/-- The render snapshot of a fresh session at the moment of the click:
`retryCount` is `0`. -/
def snapC2 : ReactState :=
  { initialReactState with uploadedImage := some "blob:img", userDescription := "crack in beam" }

/-- Fresh world: empty cache, idle limiter, the analysis endpoint answering
HTTP 429 to every dispatch. -/
def worldC2 : World :=
  { now := 0, cm := { cache := [], requestTimestamps := [], storageGeminiApiCache := none },
    react := snapC2, net := fun _ => FetchOutcome.resp 429 body429,
    dispatches := 0, sleeps := [] }

def envC2 : RunEnv :=
  { hash := fun s => s, jsonParse := fun _ => none, apiKey := some "key",
    convertResult := Except.ok "b64",
    descOutcome := FetchOutcome.resp 200 { errorMessage := none, contentPresent := true, partsText := some "d" },
    imagenOutcome := ImagenOutcome.resp 200 { generatedImage := some "i" } }

/-- C2 evaluated at the failing input: with the analysis endpoint returning
HTTP 429 on all three dispatches of a fresh run, exactly 3 dispatches are
made and the backoff delays are slept, but the user-visible message is the
retrying notice "Retrying automatically (Attempt 1/3)..." — not a message
stating "maximum retry attempts reached" — because the catch block reads the
render-time `retryCount` snapshot (0), not the value the retries pushed to 3;
for the same reason `isLoading` is never cleared. -/
theorem run_three_429s_evaluation :
    (handleGenerateReport envC2 snapC2 worldC2).dispatches = 3
    ∧ (handleGenerateReport envC2 snapC2 worldC2).react.error
        = some "Retrying automatically (Attempt 1/3)..."
    ∧ strContains "Retrying automatically (Attempt 1/3)..." "maximum retry attempts reached" = false
    ∧ strContains "Retrying automatically (Attempt 1/3)..." "Maximum retry attempts reached" = false
    ∧ (handleGenerateReport envC2 snapC2 worldC2).sleeps = [2000, 4000]
    ∧ (handleGenerateReport envC2 snapC2 worldC2).react.isLoading = true
    ∧ (handleGenerateReport envC2 snapC2 worldC2).react.retryCount = 3 :=
  ⟨by decide, by decide, by decide, by decide, by decide, by decide, by decide⟩

/-! ### Frame facts: the retry pipeline never touches the fields the
orchestrator's terminal state depends on

`geminiOp`, the retry loop around it, and `callGeminiVision` mutate only
`retryCount`, `retryDelay`, `cacheStatus` and `rateLimitStatus`; the
`error`, `isLoading`, `reportData` and `processingStep` cells pass
through unchanged, and a successful operation always leaves
`retryCount = 0`. -/


theorem geminiOp_react_facts (hash : String → String) (u p : String) (w : World) :
    ((geminiOp hash u p w).2.react.error = w.react.error
    ∧ (geminiOp hash u p w).2.react.isLoading = w.react.isLoading
    ∧ (geminiOp hash u p w).2.react.reportData = w.react.reportData
    ∧ (geminiOp hash u p w).2.react.processingStep = w.react.processingStep)
    ∧ (∀ r, (geminiOp hash u p w).1 = .ok r → (geminiOp hash u p w).2.react.retryCount = 0) := by
  unfold geminiOp
  dsimp only
  by_cases hb : (canMakeRequest w.now w.cm).1
  · rw [if_neg (by simp [hb])]
    cases hnet : w.net w.dispatches with
    | reject m => simp
    | resp status body =>
        dsimp only
        by_cases hro : responseOk status
        · rw [if_neg (by simp [hro])]
          by_cases hcp : body.contentPresent
          · rw [if_neg (by simp [hcp])]
            cases hpt : body.partsText with
            | none => simp
            | some t => simp
          · rw [if_pos (by simp [hcp])]
            simp
        · rw [if_pos (by simp [hro])]
          by_cases h429 : status == 429
          · rw [if_pos h429]
            simp
          · rw [if_neg h429]
            by_cases h403 : status == 403
            · rw [if_pos h403]
              simp
            · rw [if_neg h403]
              cases hem : body.errorMessage <;> simp
  · rw [if_pos (by simp [hb])]
    simp

theorem retryAux_react_facts (op : World → Except String String × World) (cfg : RetryConfig)
    (hframe : ∀ w', (op w').2.react.error = w'.react.error
      ∧ (op w').2.react.isLoading = w'.react.isLoading
      ∧ (op w').2.react.reportData = w'.react.reportData
      ∧ (op w').2.react.processingStep = w'.react.processingStep)
    (hok : ∀ w' r, (op w').1 = .ok r → (op w').2.react.retryCount = 0) :
    ∀ rem delay w,
      ((retryAux op cfg rem delay w).2.react.error = w.react.error
      ∧ (retryAux op cfg rem delay w).2.react.isLoading = w.react.isLoading
      ∧ (retryAux op cfg rem delay w).2.react.reportData = w.react.reportData
      ∧ (retryAux op cfg rem delay w).2.react.processingStep = w.react.processingStep)
      ∧ (∀ r, (retryAux op cfg rem delay w).1 = .ok r →
          (retryAux op cfg rem delay w).2.react.retryCount = 0)
  | 0, delay, w => by simp [retryAux]
  | rem + 1, delay, w => by
      have ih := retryAux_react_facts op cfg hframe hok rem
      simp only [retryAux]
      by_cases hb : (canMakeRequest w.now w.cm).1
      · rw [if_pos hb]
        rcases hop : op { w with cm := (canMakeRequest w.now w.cm).2 } with ⟨res, w'⟩
        have hf := hframe { w with cm := (canMakeRequest w.now w.cm).2 }
        rw [hop] at hf
        cases res with
        | ok r0 =>
            have h0 := hok { w with cm := (canMakeRequest w.now w.cm).2 } r0
            rw [hop] at h0
            exact ⟨⟨hf.1, hf.2.1, hf.2.2.1, hf.2.2.2⟩, fun r hr => h0 rfl⟩
        | error e =>
            dsimp only
            by_cases hre : isRetryableMessage e
            · by_cases hrem : rem = 0
              · subst hrem
                rw [if_neg (by simp [hre]), if_pos (show ((0 : Nat) == 0) = true from rfl)]
                exact ⟨⟨hf.1, hf.2.1, hf.2.2.1, hf.2.2.2⟩, fun r hr => by simp at hr⟩
              · rw [if_neg (by simp [hre]), if_neg (by simpa using hrem)]
                have ihw := ih (min (delay * cfg.backoffFactor) cfg.maxDelay)
                  { w' with now := w'.now + delay, sleeps := w'.sleeps ++ [delay] }
                refine ⟨⟨?_, ?_, ?_, ?_⟩, ihw.2⟩
                · rw [ihw.1.1]; exact hf.1
                · rw [ihw.1.2.1]; exact hf.2.1
                · rw [ihw.1.2.2.1]; exact hf.2.2.1
                · rw [ihw.1.2.2.2]; exact hf.2.2.2
            · have hre' : isRetryableMessage e = false := by simpa using hre
              rw [if_pos (by simp [hre'])]
              exact ⟨⟨hf.1, hf.2.1, hf.2.2.1, hf.2.2.2⟩, fun r hr => by simp at hr⟩
      · rw [if_neg hb]
        dsimp only
        by_cases hre : isRetryableMessage (rateLimitMessage
            (getNextAvailableTime w.now (canMakeRequest w.now w.cm).2).1)
        · by_cases hrem : rem = 0
          · subst hrem
            rw [if_neg (by simp [hre]), if_pos (show ((0 : Nat) == 0) = true from rfl)]
            exact ⟨⟨rfl, rfl, rfl, rfl⟩, fun r hr => by simp at hr⟩
          · rw [if_neg (by simp [hre]), if_neg (by simpa using hrem)]
            exact ⟨⟨(ih _ _).1.1, (ih _ _).1.2.1, (ih _ _).1.2.2.1, (ih _ _).1.2.2.2⟩, (ih _ _).2⟩
        · have hre' : isRetryableMessage (rateLimitMessage
              (getNextAvailableTime w.now (canMakeRequest w.now w.cm).2).1) = false := by
            simpa using hre
          rw [if_pos (by simp [hre'])]
          exact ⟨⟨rfl, rfl, rfl, rfl⟩, fun r hr => by simp at hr⟩

theorem callGeminiVision_react_facts (hash : String → String) (apiKey : Option String)
    (uploadedImage : Option String) (b64 prompt : String) (w : World) :
    ((callGeminiVision hash apiKey uploadedImage b64 prompt w).2.react.error = w.react.error
    ∧ (callGeminiVision hash apiKey uploadedImage b64 prompt w).2.react.isLoading = w.react.isLoading
    ∧ (callGeminiVision hash apiKey uploadedImage b64 prompt w).2.react.reportData = w.react.reportData
    ∧ (callGeminiVision hash apiKey uploadedImage b64 prompt w).2.react.processingStep
        = w.react.processingStep)
    ∧ (∀ r, (callGeminiVision hash apiKey uploadedImage b64 prompt w).1 = .ok r →
        w.react.retryCount = 0 →
        (callGeminiVision hash apiKey uploadedImage b64 prompt w).2.react.retryCount = 0) := by
  unfold callGeminiVision
  cases apiKey with
  | none => simp
  | some k =>
      dsimp only
      cases hget : (CacheManager.get hash w.now w.cm (uploadedImage.getD "") prompt).1 with
      | some cached =>
          simp only [hget]
          exact ⟨by simp, fun r _ h0 => h0⟩
      | none =>
          simp only [hget]
          unfold retryWithBackoff
          have hfacts := retryAux_react_facts (geminiOp hash (uploadedImage.getD "") prompt)
            RETRY_CONFIG
            (fun w' => (geminiOp_react_facts hash (uploadedImage.getD "") prompt w').1)
            (fun w' r hr => (geminiOp_react_facts hash (uploadedImage.getD "") prompt w').2 r hr)
            RETRY_CONFIG.maxRetries RETRY_CONFIG.initialDelay
            { w with cm := (CacheManager.get hash w.now w.cm (uploadedImage.getD "") prompt).2, react := { w.react with cacheStatus := some "Cache miss - calling API" } }
          exact ⟨⟨hfacts.1.1, hfacts.1.2.1, hfacts.1.2.2.1, hfacts.1.2.2.2⟩,
            fun r hr _ => hfacts.2 r hr⟩

/-- Shared success-path characterization: a run that passes validation,
converts, analyzes and visualizes successfully assembles exactly
`mkFinalReport`, clears the progress text and leaves no error. -/
theorem run_success_characterization (env : RunEnv) (snap : ReactState) (w : World)
    (img imageBase64 analysisResponse repairedImageUrl : String)
    (h1 : snap.uploadedImage = some img)
    (h2 : (jsTrim snap.userDescription == "") = false)
    (h3 : env.convertResult = .ok imageBase64)
    (h4 : (analysisStep env snap imageBase64 (startWorld w)).1 = .ok analysisResponse)
    (h5 : generateRepairedImageWithGemini env.apiKey analysisResponse env.descOutcome env.imagenOutcome
        = .ok repairedImageUrl) :
    (handleGenerateReport env snap w).react.reportData
        = some (mkFinalReport env.jsonParse analysisResponse repairedImageUrl)
    ∧ (handleGenerateReport env snap w).react.error = none
    ∧ (handleGenerateReport env snap w).react.processingStep = "" := by
  rcases hA : analysisStep env snap imageBase64 (startWorld w) with ⟨res, w2⟩
  rw [hA] at h4
  dsimp only at h4
  subst h4
  have herr2 : w2.react.error = none := by
    have hfacts := (callGeminiVision_react_facts env.hash env.apiKey snap.uploadedImage
      imageBase64 (fullPrompt snap.userDescription)
      { startWorld w with react := { (startWorld w).react with processingStep := "Analyzing infrastructure with Gemini AI..." } }).1.1
    have hA' : callGeminiVision env.hash env.apiKey snap.uploadedImage imageBase64
        (fullPrompt snap.userDescription)
        { startWorld w with react := { (startWorld w).react with processingStep := "Analyzing infrastructure with Gemini AI..." } }
        = (Except.ok analysisResponse, w2) := hA
    rw [hA'] at hfacts
    exact hfacts
  unfold handleGenerateReport
  rw [h1]
  dsimp only
  rw [if_neg (by simp [h2])]
  unfold runTry
  rw [h3]
  dsimp only
  rw [hA]
  dsimp only
  rw [h5]
  dsimp only
  unfold applyCatch applyFinally
  by_cases hfin : RETRY_CONFIG.maxRetries ≤ snap.retryCount
  · rw [if_pos hfin]
    exact ⟨rfl, herr2, rfl⟩
  · rw [if_neg hfin]
    exact ⟨rfl, herr2, rfl⟩

/-- C9: for any run triggered with the render snapshot of a fresh session
(`retryCount = 0` — the only snapshot from which the UI ever lets a run
start) that terminates with a report assembled, `isLoading` stays `true`:
the reset in the finally block is guarded by the snapshot `retryCount`
having reached `maxRetries`, while every successful run ends with the
`retryCount` state at 0, so the triggering button stays disabled. -/
theorem run_success_keeps_isLoading (env : RunEnv) (snap : ReactState) (w : World)
    (hsnap : snap.retryCount = 0)
    (hrd : w.react.reportData = none)
    (hsucc : ((handleGenerateReport env snap w).react.reportData).isSome = true) :
    (handleGenerateReport env snap w).react.isLoading = true
    ∧ (handleGenerateReport env snap w).react.retryCount = 0
    ∧ canGenerateReport (handleGenerateReport env snap w).react = false := by
  cases hui : snap.uploadedImage with
  | none =>
      exfalso
      unfold handleGenerateReport at hsucc
      rw [hui] at hsucc
      dsimp only at hsucc
      rw [hrd] at hsucc
      simp at hsucc
  | some img =>
      by_cases hdesc : (jsTrim snap.userDescription == "") = true
      · exfalso
        unfold handleGenerateReport at hsucc
        rw [hui] at hsucc
        dsimp only at hsucc
        rw [if_pos hdesc] at hsucc
        dsimp only at hsucc
        rw [hrd] at hsucc
        simp at hsucc
      · have hdesc' : (jsTrim snap.userDescription == "") = false := by
          simpa using hdesc
        unfold handleGenerateReport at hsucc ⊢
        rw [hui] at hsucc ⊢
        dsimp only at hsucc ⊢
        rw [if_neg (by simp [hdesc'])] at hsucc ⊢
        unfold runTry at hsucc ⊢
        cases hconv : env.convertResult with
        | error u =>
            exfalso
            try rw [hconv] at hsucc
            dsimp only at hsucc
            unfold applyCatch applyFinally at hsucc
            dsimp only at hsucc
            split_ifs at hsucc <;> simp [startWorld, startReact, hrd] at hsucc
        | ok b64 =>
            try rw [hconv] at hsucc
            try rw [hconv]
            dsimp only at hsucc ⊢
            rcases hA : analysisStep env snap b64 (startWorld w) with ⟨res, w2⟩
            have hA' : callGeminiVision env.hash env.apiKey snap.uploadedImage b64
                (fullPrompt snap.userDescription)
                { startWorld w with react := { (startWorld w).react with processingStep := "Analyzing infrastructure with Gemini AI..." } }
                = (res, w2) := hA
            have hfr := callGeminiVision_react_facts env.hash env.apiKey snap.uploadedImage b64
              (fullPrompt snap.userDescription)
              { startWorld w with react := { (startWorld w).react with processingStep := "Analyzing infrastructure with Gemini AI..." } }
            rw [hA'] at hfr
            have hrd2 : w2.react.reportData = none := hfr.1.2.2.1.trans hrd
            have hload2 : w2.react.isLoading = true := hfr.1.2.1.trans rfl
            try rw [hA] at hsucc
            try rw [hA]
            try dsimp only at hsucc
            try dsimp only
            cases res with
            | error e =>
                exfalso
                try dsimp only at hsucc
                unfold applyCatch applyFinally at hsucc
                dsimp only at hsucc
                split_ifs at hsucc <;> simp [hrd2] at hsucc
            | ok a =>
                have hrc2 : w2.react.retryCount = 0 := hfr.2 a rfl rfl
                try dsimp only at hsucc
                try dsimp only
                cases hG : generateRepairedImageWithGemini env.apiKey a env.descOutcome env.imagenOutcome with
                | error e =>
                    exfalso
                    try rw [hG] at hsucc
                    try dsimp only at hsucc
                    unfold applyCatch applyFinally at hsucc
                    dsimp only at hsucc
                    split_ifs at hsucc <;> simp [hrd2] at hsucc
                | ok u =>
                    try rw [hG]
                    try dsimp only
                    unfold applyCatch applyFinally
                    dsimp only
                    rw [if_neg (by rw [hsnap]; decide)]
                    refine ⟨hload2, hrc2, ?_⟩
                    unfold canGenerateReport
                    rw [hload2]
                    simp

/-- A fresh successful run: empty cache, the analysis endpoint answering a
plain-text (unparseable) response, both visualization calls succeeding. -/
def snapC9 : ReactState :=
  { initialReactState with uploadedImage := some "blob:img", userDescription := "crack in beam" }

def worldC9 : World :=
  { now := 0, cm := { cache := [], requestTimestamps := [], storageGeminiApiCache := none },
    react := snapC9,
    net := fun _ => FetchOutcome.resp 200 { errorMessage := none, contentPresent := true, partsText := some "plain analysis" },
    dispatches := 0, sleeps := [] }

def envC9 : RunEnv :=
  { hash := fun s => s, jsonParse := fun _ => none, apiKey := some "key",
    convertResult := Except.ok "b64",
    descOutcome := FetchOutcome.resp 200 { errorMessage := none, contentPresent := true, partsText := some "d" },
    imagenOutcome := ImagenOutcome.resp 200 { generatedImage := some "img64" } }

theorem run_success_keeps_isLoading_witness :
    (handleGenerateReport envC9 snapC9 worldC9).react.isLoading = true
    ∧ (handleGenerateReport envC9 snapC9 worldC9).react.retryCount = 0
    ∧ canGenerateReport (handleGenerateReport envC9 snapC9 worldC9).react = false :=
  run_success_keeps_isLoading envC9 snapC9 worldC9 rfl rfl (by rfl)

/-! ### Claim C4: unparseable analysis response degrades to the fallback report -/


/-- C4: when no structured block of the analysis response parses (no match
or a `JSON.parse` failure), an otherwise-successful run is not treated as
failed: it reaches Ready (report assembled, progress text cleared, no
error) with the fallback report whose `current_state` is the raw response
text verbatim and whose cost estimation and timeline are the fixed
placeholders. -/
theorem run_fallback_report (env : RunEnv) (snap : ReactState) (w : World)
    (img imageBase64 analysisResponse repairedImageUrl : String)
    (h1 : snap.uploadedImage = some img)
    (h2 : (jsTrim snap.userDescription == "") = false)
    (h3 : env.convertResult = .ok imageBase64)
    (h4 : (analysisStep env snap imageBase64 (startWorld w)).1 = .ok analysisResponse)
    (h5 : generateRepairedImageWithGemini env.apiKey analysisResponse env.descOutcome env.imagenOutcome
        = .ok repairedImageUrl)
    (h6 : (jsonMatch analysisResponse).bind env.jsonParse = none) :
    ((handleGenerateReport env snap w).react.reportData.bind (fun r => r.repair_description)).bind
        (fun j => Json.getField j "current_state") = some (Json.str analysisResponse)
    ∧ (handleGenerateReport env snap w).react.reportData.map (fun r => r.cost_estimation)
        = some (some fallbackCostEstimation)
    ∧ (handleGenerateReport env snap w).react.reportData.map (fun r => r.timeline)
        = some (some fallbackTimeline)
    ∧ (handleGenerateReport env snap w).react.error = none
    ∧ (handleGenerateReport env snap w).react.processingStep = "" := by
  have hm := run_success_characterization env snap w img imageBase64 analysisResponse
    repairedImageUrl h1 h2 h3 h4 h5
  have hparse : parseAnalysisResponse env.jsonParse analysisResponse
      = fallbackParsedResponse analysisResponse := by
    unfold parseAnalysisResponse
    cases hjm : jsonMatch analysisResponse with
    | none => rfl
    | some block =>
        rw [hjm] at h6
        simp only [Option.bind_some, Option.some_bind] at h6
        dsimp only
        rw [h6]
  rw [hm.1]
  refine ⟨?_, ?_, ?_, hm.2.1, hm.2.2⟩ <;>
    simp [mkFinalReport, hparse, fallbackParsedResponse, fallbackRepairDescription, Json.getField]

/-! ### Claim C1: which visualization failures are tolerated -/

/-- C1 as amended: once the prompt-derivation call
(`generateImageDescription`) has succeeded, an image-synthesis request that
resolves to an error response or to a response with no generated image is
replaced by the fixed placeholder and the run still produces its report
without error; a failure of the prompt-derivation call itself (or a
rejected synthesis request) is not caught and aborts the run. -/
theorem visualization_placeholder_on_imagen_failure (env : RunEnv) (snap : ReactState) (w : World)
    (img imageBase64 analysisResponse t : String) (st : Nat) (body : ImagenBody)
    (h1 : snap.uploadedImage = some img)
    (h2 : (jsTrim snap.userDescription == "") = false)
    (h3 : env.convertResult = .ok imageBase64)
    (h4 : (analysisStep env snap imageBase64 (startWorld w)).1 = .ok analysisResponse)
    (h5 : generateImageDescription env.apiKey analysisResponse env.descOutcome = .ok t)
    (h6 : env.imagenOutcome = ImagenOutcome.resp st body)
    (h7 : responseOk st = false ∨ body.generatedImage = none) :
    (handleGenerateReport env snap w).react.reportData.map (fun r => r.repaired_image_url)
        = some placeholderImage
    ∧ (handleGenerateReport env snap w).react.error = none := by
  have hkey : ∃ k, env.apiKey = some k := by
    cases hk : env.apiKey with
    | none => rw [hk] at h5; simp [generateImageDescription] at h5
    | some k => exact ⟨k, rfl⟩
  obtain ⟨k, hk⟩ := hkey
  rw [hk] at h5
  have hgen : generateRepairedImageWithGemini env.apiKey analysisResponse env.descOutcome
      env.imagenOutcome = .ok placeholderImage := by
    unfold generateRepairedImageWithGemini
    rw [hk]
    dsimp only
    rw [h5]
    dsimp only
    rw [h6]
    dsimp only
    rcases h7 with h7 | h7
    · rw [if_pos (by simp [h7])]
    · by_cases hro : responseOk st
      · rw [if_neg (by simp [hro]), h7]
      · rw [if_pos (by simp [hro])]
  have hm := run_success_characterization env snap w img imageBase64 analysisResponse
    placeholderImage h1 h2 h3 h4 hgen
  rw [hm.1]
  exact ⟨rfl, hm.2.1⟩

theorem run_fallback_report_witness :
    ((handleGenerateReport envC9 snapC9 worldC9).react.reportData.bind
        (fun r => r.repair_description)).bind (fun j => Json.getField j "current_state")
      = some (Json.str "plain analysis")
    ∧ (handleGenerateReport envC9 snapC9 worldC9).react.reportData.map (fun r => r.cost_estimation)
      = some (some fallbackCostEstimation)
    ∧ (handleGenerateReport envC9 snapC9 worldC9).react.error = none := by
  have h := run_fallback_report envC9 snapC9 worldC9 "blob:img" "b64" "plain analysis"
    "data:image/png;base64,img64" rfl (by decide) rfl rfl rfl rfl
  exact ⟨h.1, h.2.1, h.2.2.2.1⟩

/-- A run whose prompt-derivation call fails with an HTTP 500. -/
def envC1bad : RunEnv :=
  { envC9 with
    descOutcome := FetchOutcome.resp 500 { errorMessage := some "boom", contentPresent := false, partsText := none } }

/-- C1 counterexample: a run whose analysis step succeeds but whose
prompt-derivation call (`generateImageDescription`, part of the
visualization step) fails is NOT completed with the placeholder — the error
propagates, no report is produced and the run ends in the errored state. -/
theorem visualization_failure_aborts_run :
    (analysisStep envC1bad snapC9 "b64" (startWorld worldC9)).1 = .ok "plain analysis"
    ∧ generateImageDescription envC1bad.apiKey "plain analysis" envC1bad.descOutcome
        = .error "Gemini API error: boom"
    ∧ (handleGenerateReport envC1bad snapC9 worldC9).react.reportData = none
    ∧ (handleGenerateReport envC1bad snapC9 worldC9).react.error
        = some "Failed to generate report. Gemini API error: boom" :=
  ⟨rfl, rfl, rfl, by decide⟩

/-- A run whose image-synthesis request resolves to an HTTP 500 while the
prompt-derivation call succeeds. -/
def envC1tolerated : RunEnv :=
  { envC9 with imagenOutcome := ImagenOutcome.resp 500 { generatedImage := none } }

theorem visualization_placeholder_on_imagen_failure_witness :
    (handleGenerateReport envC1tolerated snapC9 worldC9).react.reportData.map
        (fun r => r.repaired_image_url) = some placeholderImage
    ∧ (handleGenerateReport envC1tolerated snapC9 worldC9).react.error = none :=
  visualization_placeholder_on_imagen_failure envC1tolerated snapC9 worldC9
    "blob:img" "b64" "plain analysis" "d" 500 { generatedImage := none }
    rfl (by decide) rfl rfl rfl rfl (Or.inl rfl)
